import Mathlib

/-!
Formal model of the password-analysis core of `Calazar_PM.py`
(terminal password strength analyzer).

The Python functions `calc_entropy`, `analyze_password` and
`generate_suggestion` are shallowly embedded below.  Strings are Lean
`String`s (lists of characters); Python's character-class tests
(`islower`, `isupper`, `isdigit`, `isalnum`) are modelled by the
corresponding `Char` predicates; `math.log2` becomes `Real.logb 2` and
`round(x, 2)` becomes rounding `100 * x` to the nearest integer and
dividing by `100`.  The random choices of the generator are modelled by
an explicit stream of indices and an explicit shuffle function that is
assumed (in the theorems) to permute its argument.
-/

namespace Calazar

/-- The static common-password denylist `COMMONS` of `Calazar_PM.py`. -/
def COMMONS : List String :=
  ["123456", "password", "123456789", "qwerty", "abc123", "111111", "123123",
   "iloveyou", "password1", "admin", "letmein"]

/-- Model of Python `pw.lower()`: lowercase every character. -/
def lower (s : String) : String := ⟨s.data.map Char.toLower⟩

/-- The character-pool size computed inside `calc_entropy`
(lines 53-58): 26 if a lowercase letter occurs, plus 26 for an
uppercase letter, plus 10 for a digit, plus 32 for a non-alphanumeric
character. -/
def pool (pw : String) : ℕ :=
  (if pw.data.any Char.isLower then 26 else 0) +
  (if pw.data.any Char.isUpper then 26 else 0) +
  (if pw.data.any Char.isDigit then 10 else 0) +
  (if pw.data.any (fun c => !c.isAlphanum) then 32 else 0)

/-- Model of Python `round(x, 2)`: round to two decimal places. -/
noncomputable def round2 (x : ℝ) : ℝ := (round (100 * x) : ℤ) / 100

/-- `calc_entropy` (lines 51-63): 0 when the pool is empty or the string
is empty, otherwise `len(pw) * log2(pool)` rounded to 2 decimals. -/
noncomputable def calc_entropy (pw : String) : ℝ :=
  if pool pw = 0 ∨ pw.length = 0 then 0
  else round2 (pw.length * Real.logb 2 (pool pw))

/-- The analysis dictionary returned by `analyze_password`. -/
structure Analysis where
  score : ℕ
  entropy : ℝ
  rating : String
  suggestions : List String

/-- The score accumulation of `analyze_password` (lines 74-81): one
point per satisfied criterion, in source order. -/
noncomputable def score (pw : String) : ℕ :=
  (if 8 ≤ pw.length then 1 else 0) +
  (if 12 ≤ pw.length then 1 else 0) +
  (if pw.data.any Char.isLower then 1 else 0) +
  (if pw.data.any Char.isUpper then 1 else 0) +
  (if pw.data.any Char.isDigit then 1 else 0) +
  (if pw.data.any (fun c => !c.isAlphanum) then 1 else 0) +
  (if 60 < calc_entropy pw then 1 else 0)

/-- The rating cascade of `analyze_password` (lines 84-91). -/
noncomputable def rating (pw : String) : String :=
  if score pw ≤ 2 then "Weak"
  else if score pw ≤ 4 then "Medium"
  else if score pw ≤ 6 then "Strong"
  else "Very Strong"

/-- The conditional suggestion appends of `analyze_password`
(lines 94-106), in source order. -/
def checks (pw : String) : List String :=
  (if pw.length < 12 then ["Increase length to 12+ characters"] else []) ++
  (if ¬ pw.data.any Char.isUpper then ["Add uppercase letters (A-Z)"] else []) ++
  (if ¬ pw.data.any Char.isLower then ["Add lowercase letters (a-z)"] else []) ++
  (if ¬ pw.data.any Char.isDigit then ["Add digits (0-9)"] else []) ++
  (if ¬ pw.data.any (fun c => !c.isAlphanum) then ["Include symbols (e.g. ! @ # $ %)"] else []) ++
  (if pw.data.contains ' ' then
    ["Avoid spaces in passwords (or use predictable separators carefully)"] else [])

/-- The suggestion list of `analyze_password` (lines 94-108): the
conditional appends, with the passphrase fallback when none fired. -/
def suggestions (pw : String) : List String :=
  if checks pw = [] then ["Looks good — consider using a passphrase for extra entropy"]
  else checks pw

/-- `analyze_password` (lines 65-110): empty-string early return,
common-password early return, then score, rating and suggestions. -/
noncomputable def analyze_password (pw : String) : Analysis :=
  if pw = "" then
    { score := 0, entropy := 0, rating := "Empty", suggestions := ["Type a password"] }
  else if lower pw ∈ COMMONS then
    { score := 0, entropy := calc_entropy pw, rating := "Very Weak (common)",
      suggestions := ["Use a unique password not in common lists",
                      "Increase length", "Add symbols and mixed case"] }
  else
    { score := score pw, entropy := calc_entropy pw, rating := rating pw,
      suggestions := suggestions pw }

/-- The seven scoring criteria of the spec (§4.2 rule 3), as a list of
booleans in the spec's order: length ≥ 8, length ≥ 12, lowercase
present, uppercase present, digit present, symbol present,
entropy > 60 bits. -/
noncomputable def criteria (pw : String) : List Bool :=
  [decide (8 ≤ pw.length), decide (12 ≤ pw.length),
   pw.data.any Char.isLower, pw.data.any Char.isUpper, pw.data.any Char.isDigit,
   pw.data.any (fun c => !c.isAlphanum), decide (60 < calc_entropy pw)]

/-- C5: the empty string yields score 0, entropy 0.0, rating "Empty" and
a single suggestion asking the user to type something. -/
theorem analyze_empty :
    analyze_password "" =
      { score := 0, entropy := 0, rating := "Empty",
        suggestions := ["Type a password"] } ∧
    (analyze_password "").suggestions.length = 1 := by
  constructor
  · simp [analyze_password]
  · simp [analyze_password]

/-- C3: a string whose lowercased form is in the common-password set is
analyzed as score 0, rating "Very Weak (common)", entropy computed
normally by `calc_entropy`, and the fixed 3-item suggestion list —
whatever its length or complexity. -/
theorem analyze_common (pw : String) (h : lower pw ∈ COMMONS) :
    (analyze_password pw).score = 0 ∧
    (analyze_password pw).rating = "Very Weak (common)" ∧
    (analyze_password pw).entropy = calc_entropy pw ∧
    (analyze_password pw).suggestions =
      ["Use a unique password not in common lists", "Increase length",
       "Add symbols and mixed case"] ∧
    (analyze_password pw).suggestions.length = 3 := by
  have hne : pw ≠ "" := by
    rintro rfl
    revert h
    decide
  simp [analyze_password, hne, h]

/-- Witness for C3: "PASSWORD" lowers to the common entry "password"
and is rated "Very Weak (common)" with score 0. -/
theorem analyze_common_witness :
    lower "PASSWORD" ∈ COMMONS ∧
    (analyze_password "PASSWORD").score = 0 ∧
    (analyze_password "PASSWORD").rating = "Very Weak (common)" ∧
    (analyze_password "PASSWORD").entropy = calc_entropy "PASSWORD" ∧
    (analyze_password "PASSWORD").suggestions =
      ["Use a unique password not in common lists", "Increase length",
       "Add symbols and mixed case"] ∧
    (analyze_password "PASSWORD").suggestions.length = 3 :=
  ⟨by decide, analyze_common "PASSWORD" (by decide)⟩

/-- C1: for a non-empty string not case-insensitively in the common set,
the score is exactly the number of satisfied criteria among the seven
of `criteria`, hence bounded in [0, 7]. -/
theorem score_counts_criteria (pw : String) (h1 : pw ≠ "") (h2 : lower pw ∉ COMMONS) :
    (analyze_password pw).score = (criteria pw).count true ∧
    (analyze_password pw).score ≤ 7 := by
  have hs : (analyze_password pw).score = score pw := by
    simp [analyze_password, h1, h2]
  rw [hs]
  constructor
  · unfold score criteria
    simp only [List.count_cons, List.count_nil, beq_iff_eq, decide_eq_true_eq]
    split_ifs <;> omega
  · unfold score
    split_ifs <;> omega

/-- Witness for C1 at the concrete non-common string "abc". -/
theorem score_counts_criteria_witness :
    "abc" ≠ "" ∧ lower "abc" ∉ COMMONS ∧
    ((analyze_password "abc").score = (criteria "abc").count true ∧
     (analyze_password "abc").score ≤ 7) :=
  ⟨by decide, by decide, score_counts_criteria "abc" (by decide) (by decide)⟩

/-- C2: for a non-empty, non-common string, the rating is determined by
thresholds on the accumulated integer score: 0-2 Weak, 3-4 Medium,
5-6 Strong, 7 Very Strong. -/
theorem rating_from_score (pw : String) (h1 : pw ≠ "") (h2 : lower pw ∉ COMMONS) :
    (analyze_password pw).score = score pw ∧
    (analyze_password pw).rating = rating pw ∧
    (score pw ≤ 2 → rating pw = "Weak") ∧
    (3 ≤ score pw ∧ score pw ≤ 4 → rating pw = "Medium") ∧
    (5 ≤ score pw ∧ score pw ≤ 6 → rating pw = "Strong") ∧
    (score pw = 7 → rating pw = "Very Strong") := by
  refine ⟨by simp [analyze_password, h1, h2], by simp [analyze_password, h1, h2],
    ?_, ?_, ?_, ?_⟩ <;> intro h <;> unfold rating
  · rw [if_pos h]
  · rw [if_neg (by omega), if_pos (by omega)]
  · rw [if_neg (by omega), if_neg (by omega), if_pos (by omega)]
  · rw [if_neg (by omega), if_neg (by omega), if_neg (by omega)]

/-- Witness for C2 at the concrete non-common string "hello world". -/
theorem rating_from_score_witness :
    "hello world" ≠ "" ∧ lower "hello world" ∉ COMMONS ∧
    ((analyze_password "hello world").score = score "hello world" ∧
     (analyze_password "hello world").rating = rating "hello world" ∧
     (score "hello world" ≤ 2 → rating "hello world" = "Weak") ∧
     (3 ≤ score "hello world" ∧ score "hello world" ≤ 4 →
       rating "hello world" = "Medium") ∧
     (5 ≤ score "hello world" ∧ score "hello world" ≤ 6 →
       rating "hello world" = "Strong") ∧
     (score "hello world" = 7 → rating "hello world" = "Very Strong")) :=
  ⟨by decide, by decide, rating_from_score "hello world" (by decide) (by decide)⟩

/-- Auxiliary: a string has length 0 exactly when it is empty. -/
theorem length_eq_zero_iff {s : String} : s.length = 0 ↔ s = "" := by
  constructor
  · intro h
    exact String.ext (List.length_eq_zero.mp h)
  · rintro rfl
    rfl

/-- The Entropy Estimator as worded in the spec (§4.1): pool size is the
sum of contributions 26/26/10/32 over the four character classes that
appear at least once in the string; entropy is 0 when the string is
empty or the pool is empty, and otherwise length × log2(poolSize)
rounded to 2 decimal places. -/
noncomputable def entropySpec (pw : String) : ℝ :=
  let poolSize : ℕ :=
    (if ∃ c ∈ pw.data, c.isLower then 26 else 0) +
    (if ∃ c ∈ pw.data, c.isUpper then 26 else 0) +
    (if ∃ c ∈ pw.data, c.isDigit then 10 else 0) +
    (if ∃ c ∈ pw.data, ¬ c.isAlphanum then 32 else 0)
  if pw = "" ∨ poolSize = 0 then 0
  else round2 (pw.length * Real.logb 2 poolSize)

/-- C4: `calc_entropy` computes exactly the spec's formula: 0 for an
empty string or empty pool, otherwise length × log2(poolSize) rounded
to 2 decimal places, with poolSize the sum of the 26/26/10/32 class
contributions. -/
theorem calc_entropy_eq_spec (pw : String) : calc_entropy pw = entropySpec pw := by
  unfold calc_entropy entropySpec pool
  by_cases h1 : pw.data.any Char.isLower = true <;>
  by_cases h2 : pw.data.any Char.isUpper = true <;>
  by_cases h3 : pw.data.any Char.isDigit = true <;>
  by_cases h4 : pw.data.any (fun c => !c.isAlphanum) = true <;>
  by_cases h5 : pw = "" <;>
    simp_all [List.any_eq_true, Bool.not_eq_true', length_eq_zero_iff, or_comm]

/-- The suggestion checks as worded in the spec (§4.2 rule 5), in the
spec's fixed order: length < 12, missing uppercase, missing lowercase,
missing digit, missing symbol, then presence of a literal space. -/
def checksSpec (pw : String) : List String :=
  (if pw.length < 12 then ["Increase length to 12+ characters"] else []) ++
  (if ¬ ∃ c ∈ pw.data, c.isUpper then ["Add uppercase letters (A-Z)"] else []) ++
  (if ¬ ∃ c ∈ pw.data, c.isLower then ["Add lowercase letters (a-z)"] else []) ++
  (if ¬ ∃ c ∈ pw.data, c.isDigit then ["Add digits (0-9)"] else []) ++
  (if ¬ ∃ c ∈ pw.data, ¬ c.isAlphanum then ["Include symbols (e.g. ! @ # $ %)"] else []) ++
  (if ' ' ∈ pw.data then
    ["Avoid spaces in passwords (or use predictable separators carefully)"] else [])

/-- The suggestion list as worded in the spec: the ordered unmet-criteria
checks, or exactly the single passphrase recommendation when none fired. -/
def suggestionsSpec (pw : String) : List String :=
  if checksSpec pw = [] then ["Looks good — consider using a passphrase for extra entropy"]
  else checksSpec pw

/-- C6: for a non-empty, non-common string the suggestions are exactly
the spec's ordered unmet-criteria list with the passphrase fallback,
and for every input string the suggestions list is non-empty. -/
theorem suggestions_match_spec (pw : String) (h1 : pw ≠ "") (h2 : lower pw ∉ COMMONS) :
    (analyze_password pw).suggestions = suggestionsSpec pw ∧
    ∀ q : String, (analyze_password q).suggestions ≠ [] := by
  constructor
  · have hsug : (analyze_password pw).suggestions = suggestions pw := by
      simp [analyze_password, h1, h2]
    rw [hsug]
    have hchecks : checks pw = checksSpec pw := by
      unfold checks checksSpec
      by_cases g1 : pw.length < 12 <;>
      by_cases g2 : pw.data.any Char.isUpper = true <;>
      by_cases g3 : pw.data.any Char.isLower = true <;>
      by_cases g4 : pw.data.any Char.isDigit = true <;>
      by_cases g5 : pw.data.any (fun c => !c.isAlphanum) = true <;>
      by_cases g6 : ' ' ∈ pw.data <;>
        simp_all [List.any_eq_true, Bool.not_eq_true',
          List.contains_iff_exists_mem_beq, beq_iff_eq, exists_eq_right]
    unfold suggestions suggestionsSpec
    rw [hchecks]
  · intro q
    by_cases hq : q = ""
    · simp [analyze_password, hq]
    · by_cases hc : lower q ∈ COMMONS
      · simp [analyze_password, hq, hc]
      · have hsug : (analyze_password q).suggestions = suggestions q := by
          simp [analyze_password, hq, hc]
        rw [hsug]
        unfold suggestions
        by_cases he : checks q = []
        · rw [if_pos he]
          simp
        · rw [if_neg he]
          exact he

/-- Witness for C6 at the concrete non-common string "pw 1". -/
theorem suggestions_match_spec_witness :
    "pw 1" ≠ "" ∧ lower "pw 1" ∉ COMMONS ∧
    ((analyze_password "pw 1").suggestions = suggestionsSpec "pw 1" ∧
     ∀ q : String, (analyze_password q).suggestions ≠ []) :=
  ⟨by decide, by decide, suggestions_match_spec "pw 1" (by decide) (by decide)⟩

/-- Auxiliary: rounding to two decimals is monotone. -/
theorem round2_mono {x y : ℝ} (h : x ≤ y) : round2 x ≤ round2 y := by
  unfold round2
  have hr : round (100 * x) ≤ round (100 * y) := by
    rw [round_eq, round_eq]
    exact Int.floor_mono (by linarith)
  have : ((round (100 * x) : ℤ) : ℝ) ≤ ((round (100 * y) : ℤ) : ℝ) :=
    Int.cast_le.mpr hr
  linarith

/-- Auxiliary: appending a character all of whose classes are already
present in the string leaves the character pool unchanged. -/
theorem pool_push (s : String) (c : Char)
    (hl : c.isLower = true → s.data.any Char.isLower = true)
    (hu : c.isUpper = true → s.data.any Char.isUpper = true)
    (hd : c.isDigit = true → s.data.any Char.isDigit = true)
    (hy : c.isAlphanum = false → s.data.any (fun x => !x.isAlphanum) = true) :
    pool (s.push c) = pool s := by
  have l1 : (s.data.any Char.isLower || c.isLower) = s.data.any Char.isLower := by
    cases hc : c.isLower
    · simp
    · simp [hl hc]
  have l2 : (s.data.any Char.isUpper || c.isUpper) = s.data.any Char.isUpper := by
    cases hc : c.isUpper
    · simp
    · simp [hu hc]
  have l3 : (s.data.any Char.isDigit || c.isDigit) = s.data.any Char.isDigit := by
    cases hc : c.isDigit
    · simp
    · simp [hd hc]
  have l4 : (s.data.any (fun x => !x.isAlphanum) || !c.isAlphanum) =
      s.data.any (fun x => !x.isAlphanum) := by
    cases hc : c.isAlphanum
    · simp [hy hc]
    · simp
  unfold pool
  rw [String.data_push]
  simp only [List.any_append, List.any_cons, List.any_nil, Bool.or_false]
  rw [l1, l2, l3, l4]

/-- Auxiliary: a string of length zero has an empty character pool. -/
theorem pool_eq_zero_of_length_eq_zero {s : String} (h : s.length = 0) :
    pool s = 0 := by
  have hd : s.data = [] := List.length_eq_zero.mp h
  simp [pool, hd]

/-- C7: appending a character drawn from a character class already
present in the string never decreases the computed entropy, even after
rounding to two decimal places. -/
theorem calc_entropy_mono_push (s : String) (c : Char)
    (hl : c.isLower = true → s.data.any Char.isLower = true)
    (hu : c.isUpper = true → s.data.any Char.isUpper = true)
    (hd : c.isDigit = true → s.data.any Char.isDigit = true)
    (hy : c.isAlphanum = false → s.data.any (fun x => !x.isAlphanum) = true) :
    calc_entropy s ≤ calc_entropy (s.push c) := by
  have hpool : pool (s.push c) = pool s := pool_push s c hl hu hd hy
  by_cases h0 : pool s = 0
  · simp [calc_entropy, hpool, h0]
  · have hlen : s.length ≠ 0 := fun hz => h0 (pool_eq_zero_of_length_eq_zero hz)
    have hlen' : (s.push c).length ≠ 0 := by
      rw [String.length_push]
      omega
    unfold calc_entropy
    rw [if_neg (not_or.mpr ⟨h0, hlen⟩),
      if_neg (not_or.mpr ⟨by rw [hpool]; exact h0, hlen'⟩), hpool, String.length_push]
    apply round2_mono
    have hcast : (1 : ℝ) ≤ (pool s : ℝ) := by
      have : 1 ≤ pool s := Nat.one_le_iff_ne_zero.mpr h0
      exact_mod_cast this
    have hL : 0 ≤ Real.logb 2 (pool s) := Real.logb_nonneg (by norm_num) hcast
    have hle : (s.length : ℝ) ≤ ((s.length + 1 : ℕ) : ℝ) := by
      push_cast
      linarith
    exact mul_le_mul_of_nonneg_right hle hL

/-- Witness for C7: appending the lowercase letter 'c' to "ab", whose
pool already contains the lowercase class. -/
theorem calc_entropy_mono_push_witness :
    (('c').isLower = true → "ab".data.any Char.isLower = true) ∧
    calc_entropy "ab" ≤ calc_entropy ("ab".push 'c') :=
  ⟨by decide,
   calc_entropy_mono_push "ab" 'c' (by decide) (by decide) (by decide) (by decide)⟩

/-- Lowercase alphabet used by `generate_suggestion` (line 114). -/
def lowers : List Char := "abcdefghijklmnopqrstuvwxyz".data

/-- Uppercase alphabet: `lowers.upper()` (line 115). -/
def uppers : List Char := lowers.map Char.toUpper

/-- Digits used by `generate_suggestion` (line 116). -/
def digits : List Char := "0123456789".data

/-- The fixed symbol set of `generate_suggestion` (line 117). -/
def symbols : List Char := "!@#$%^&*()-_=+[]\x7b\x7d;:,.<>/?".data

/-- Union of the four classes: `allchars` (line 119). -/
def allchars : List Char := lowers ++ uppers ++ digits ++ symbols

/-- Model of `random.choice(l)`: pick the element at an arbitrary
random index (reduced modulo the list length so that every index
denotes an element; every element is reachable). -/
def choice (l : List Char) (i : ℕ) : Char := l.getD (i % l.length) ' '

/-- `generate_suggestion` (lines 112-129): one guaranteed character per
class, padding from `allchars` while the password is shorter than the
requested length, then a shuffle.  The random choices are supplied as
the index stream `r`; the shuffle outcome as the function `sh`
(constrained to be a permutation in the theorems).  The requested
length is an integer, as in Python, so negative requests are
representable. -/
def generate_suggestion (length : ℤ) (r : ℕ → ℕ) (sh : List Char → List Char) : String :=
  ⟨sh ([choice lowers (r 0), choice uppers (r 1), choice digits (r 2),
        choice symbols (r 3)] ++
    (List.range (length - 4).toNat).map (fun k => choice allchars (r (4 + k))))⟩

/-- Auxiliary: `String.mk` data projection. -/
theorem data_mk (l : List Char) : (String.mk l).data = l := rfl

/-- Auxiliary: `choice` always returns an element of a non-empty list. -/
theorem choice_mem {l : List Char} (h : l ≠ []) (i : ℕ) : choice l i ∈ l := by
  unfold choice
  have hlen : 0 < l.length := List.length_pos.mpr h
  have hlt : i % l.length < l.length := Nat.mod_lt _ hlen
  simp only [List.getD_eq_getElem?_getD, List.getElem?_eq_getElem hlt, Option.getD_some]
  exact List.getElem_mem hlt

/-- Auxiliary: read off a pointwise boolean fact from `List.all`. -/
theorem all_apply {l : List Char} {p : Char → Bool} (h : l.all p = true)
    {c : Char} (hc : c ∈ l) : p c = true :=
  List.all_eq_true.mp h c hc

/-- Auxiliary: read off a pointwise negative fact from `List.all`. -/
theorem all_not_apply {l : List Char} {p : Char → Bool}
    (h : l.all (fun c => !p c) = true) {c : Char} (hc : c ∈ l) : p c = false := by
  have := List.all_eq_true.mp h c hc
  simpa using this

/-- C8: for every requested length N ≥ 4 and every outcome of the random
choices and the shuffle, the generated password has length exactly N and
contains at least one lowercase letter, one uppercase letter, one digit,
and one symbol from the fixed symbol set. -/
theorem generate_ok (N : ℤ) (hN : 4 ≤ N) (r : ℕ → ℕ)
    (sh : List Char → List Char) (hsh : ∀ l : List Char, (sh l).Perm l) :
    (generate_suggestion N r sh).length = N.toNat ∧
    (∃ c ∈ (generate_suggestion N r sh).data, c.isLower) ∧
    (∃ c ∈ (generate_suggestion N r sh).data, c.isUpper) ∧
    (∃ c ∈ (generate_suggestion N r sh).data, c.isDigit) ∧
    (∃ c ∈ (generate_suggestion N r sh).data, c ∈ symbols) := by
  unfold generate_suggestion
  have hperm := hsh ([choice lowers (r 0), choice uppers (r 1), choice digits (r 2),
      choice symbols (r 3)] ++
    (List.range (N - 4).toNat).map (fun k => choice allchars (r (4 + k))))
  refine ⟨?_, ?_, ?_, ?_, ?_⟩
  · rw [String.length_mk, hperm.length_eq]
    simp only [List.length_append, List.length_cons, List.length_nil, List.length_map,
      List.length_range]
    omega
  · exact ⟨choice lowers (r 0),
      by rw [data_mk]; exact hperm.mem_iff.mpr (List.mem_append_left _ (by simp)),
      all_apply (by decide) (choice_mem (by decide) (r 0))⟩
  · exact ⟨choice uppers (r 1),
      by rw [data_mk]; exact hperm.mem_iff.mpr (List.mem_append_left _ (by simp)),
      all_apply (by decide) (choice_mem (by decide) (r 1))⟩
  · exact ⟨choice digits (r 2),
      by rw [data_mk]; exact hperm.mem_iff.mpr (List.mem_append_left _ (by simp)),
      all_apply (by decide) (choice_mem (by decide) (r 2))⟩
  · exact ⟨choice symbols (r 3),
      by rw [data_mk]; exact hperm.mem_iff.mpr (List.mem_append_left _ (by simp)),
      choice_mem (by decide) (r 3)⟩

/-- Witness for C8 at requested length 5 with all random indices 0 and
the identity shuffle. -/
theorem generate_ok_witness :
    (4 : ℤ) ≤ 5 ∧
    ((generate_suggestion 5 (fun _ => 0) id).length = (5 : ℤ).toNat ∧
     (∃ c ∈ (generate_suggestion 5 (fun _ => 0) id).data, c.isLower) ∧
     (∃ c ∈ (generate_suggestion 5 (fun _ => 0) id).data, c.isUpper) ∧
     (∃ c ∈ (generate_suggestion 5 (fun _ => 0) id).data, c.isDigit) ∧
     (∃ c ∈ (generate_suggestion 5 (fun _ => 0) id).data, c ∈ symbols)) :=
  ⟨by norm_num,
   generate_ok 5 (by norm_num) (fun _ => 0) id (fun l => List.Perm.refl l)⟩

/-- C10: for every requested length N < 4 (including 0 and negatives)
and every outcome of the random choices and the shuffle, the generator
raises no error and returns a string of length exactly 4 containing one
lowercase letter, one uppercase letter, one digit and one symbol from
the fixed symbol set. -/
theorem generate_below_four (N : ℤ) (hN : N < 4) (r : ℕ → ℕ)
    (sh : List Char → List Char) (hsh : ∀ l : List Char, (sh l).Perm l) :
    (generate_suggestion N r sh).length = 4 ∧
    (generate_suggestion N r sh).data.countP Char.isLower = 1 ∧
    (generate_suggestion N r sh).data.countP Char.isUpper = 1 ∧
    (generate_suggestion N r sh).data.countP Char.isDigit = 1 ∧
    (generate_suggestion N r sh).data.countP (fun c => symbols.contains c) = 1 := by
  have hpad : (N - 4).toNat = 0 := by omega
  unfold generate_suggestion
  rw [hpad]
  simp only [List.range_zero, List.map_nil, List.append_nil, String.length_mk, data_mk]
  have hperm := hsh [choice lowers (r 0), choice uppers (r 1), choice digits (r 2),
    choice symbols (r 3)]
  refine ⟨by rw [hperm.length_eq]; rfl, ?_, ?_, ?_, ?_⟩
  · rw [hperm.countP_eq]
    have e1 : Char.isLower (choice lowers (r 0)) = true :=
      all_apply (by decide) (choice_mem (by decide) (r 0))
    have e2 : Char.isLower (choice uppers (r 1)) = false :=
      all_not_apply (by decide) (choice_mem (by decide) (r 1))
    have e3 : Char.isLower (choice digits (r 2)) = false :=
      all_not_apply (by decide) (choice_mem (by decide) (r 2))
    have e4 : Char.isLower (choice symbols (r 3)) = false :=
      all_not_apply (by decide) (choice_mem (by decide) (r 3))
    simp [List.countP_cons, e1, e2, e3, e4]
  · rw [hperm.countP_eq]
    have e1 : Char.isUpper (choice lowers (r 0)) = false :=
      all_not_apply (by decide) (choice_mem (by decide) (r 0))
    have e2 : Char.isUpper (choice uppers (r 1)) = true :=
      all_apply (by decide) (choice_mem (by decide) (r 1))
    have e3 : Char.isUpper (choice digits (r 2)) = false :=
      all_not_apply (by decide) (choice_mem (by decide) (r 2))
    have e4 : Char.isUpper (choice symbols (r 3)) = false :=
      all_not_apply (by decide) (choice_mem (by decide) (r 3))
    simp [List.countP_cons, e1, e2, e3, e4]
  · rw [hperm.countP_eq]
    have e1 : Char.isDigit (choice lowers (r 0)) = false :=
      all_not_apply (by decide) (choice_mem (by decide) (r 0))
    have e2 : Char.isDigit (choice uppers (r 1)) = false :=
      all_not_apply (by decide) (choice_mem (by decide) (r 1))
    have e3 : Char.isDigit (choice digits (r 2)) = true :=
      all_apply (by decide) (choice_mem (by decide) (r 2))
    have e4 : Char.isDigit (choice symbols (r 3)) = false :=
      all_not_apply (by decide) (choice_mem (by decide) (r 3))
    simp [List.countP_cons, e1, e2, e3, e4]
  · rw [hperm.countP_eq]
    have e1 : symbols.contains (choice lowers (r 0)) = false :=
      all_not_apply (by decide) (choice_mem (by decide) (r 0))
    have e2 : symbols.contains (choice uppers (r 1)) = false :=
      all_not_apply (by decide) (choice_mem (by decide) (r 1))
    have e3 : symbols.contains (choice digits (r 2)) = false :=
      all_not_apply (by decide) (choice_mem (by decide) (r 2))
    have e4 : symbols.contains (choice symbols (r 3)) = true :=
      all_apply (by decide) (choice_mem (by decide) (r 3))
    have m1 : choice lowers (r 0) ∉ symbols := by simpa using e1
    have m2 : choice uppers (r 1) ∉ symbols := by simpa using e2
    have m3 : choice digits (r 2) ∉ symbols := by simpa using e3
    have m4 : choice symbols (r 3) ∈ symbols := by simpa using e4
    simp [List.countP_cons, m1, m2, m3, m4]

/-- Witness for C10 at requested length 0 with all random indices 0 and
the identity shuffle. -/
theorem generate_below_four_witness :
    (0 : ℤ) < 4 ∧
    ((generate_suggestion 0 (fun _ => 0) id).length = 4 ∧
     (generate_suggestion 0 (fun _ => 0) id).data.countP Char.isLower = 1 ∧
     (generate_suggestion 0 (fun _ => 0) id).data.countP Char.isUpper = 1 ∧
     (generate_suggestion 0 (fun _ => 0) id).data.countP Char.isDigit = 1 ∧
     (generate_suggestion 0 (fun _ => 0) id).data.countP
       (fun c => symbols.contains c) = 1) :=
  ⟨by norm_num,
   generate_below_four 0 (by norm_num) (fun _ => 0) id (fun l => List.Perm.refl l)⟩

/-- C9: at the concrete requested length 2 (below 4), with all random
indices 0 and the identity shuffle, the generator signals no error and
silently returns the 4-character password "aA0!" instead of a length-2
result — contradicting the spec's requirement of an explicit error for
requested lengths below 4. -/
theorem generate_no_error_below_four :
    generate_suggestion 2 (fun _ => 0) id = "aA0!" := by
  decide

end Calazar
